import Mathlib

/-!
Shallow embedding of `graphlite/query.py`: the edge-pattern value type `V`,
the lazy composable `Query` object, and the traversal / set-operator
algebra, together with proofs of the behavioural properties of the module.

Python dynamic behaviour that the claims depend on is modelled explicitly:
  - `tuple` versus `list` storage of the fragment sequence (`PySeq`):
    `Query.__init__` and `Query.derived` store tuples, while
    `Query.traverse` assigns a list literal, and Python raises `TypeError`
    when a list is concatenated with a tuple;
  - fallible operations return `Except PyErr`, where `PyErr` names the
    built-in Python exception classes that the code can actually raise.

The statement-generation primitives live in `graphlite/sql.py`, which is
outside the provided source; they are modelled from the specification of
the StatementBuilder collaborator (four pure functions, each returning one
parametrized statement fragment plus its positional parameters).
-/

/-- Node identifiers are integers in graphlite. -/
abbrev Node := Int

/-- Relation labels are strings. -/
abbrev RelLabel := String

/-- A positional statement parameter: a node identifier or Python None. -/
abbrev Param := Option Int

/-- Python exceptions that the embedded code can raise. -/
inductive PyErr where
  | typeError
  | valueError
  | attributeError
deriving DecidableEq

/-- The edge class `V` of `graphlite/query.py`: a (source, relation,
destination) triple where any field may be unbound (Python None). -/
structure V where
  src : Option Node
  rel : Option RelLabel
  dst : Option Node
deriving DecidableEq

/-- A Python value an edge can be compared against: an edge, or some value
of a different runtime type (integer, string, None). -/
inductive PyVal where
  | vV (v : V)
  | vInt (n : Int)
  | vStr (s : String)
  | vNone
deriving DecidableEq

/-- `V.__eq__`: an `isinstance` check followed by componentwise comparison
of the (src, rel, dst) triple; comparison against a value of any other
runtime type returns false (total, never raises). -/
def V.eq (v : V) (other : PyVal) : Bool :=
  match other with
  | PyVal.vV w => decide (v.src = w.src) && decide (v.rel = w.rel) && decide (v.dst = w.dst)
  | _ => false

/-- `hash((self.src, self.rel, self.dst))` of `V.__hash__`: Python tuple
hashing, modelled as a concrete function of the triple — the only property
the code relies on is that the hash depends on nothing but the triple. -/
def tripleHash (src : Option Node) (rel : Option RelLabel) (dst : Option Node) : Nat :=
  let hi : Option Int → Nat := fun o =>
    match o with
    | none => 0
    | some n => 1 + 2 * n.natAbs + (if n < 0 then 1 else 0)
  let hs : Option RelLabel → Nat := fun o =>
    match o with
    | none => 0
    | some s0 => 1 + s0.foldl (fun a c => a * 257 + c.toNat + 1) 0
  (hi src * 1000003 + hs rel) * 1000003 + hi dst

/-- `V.__hash__` as a function of the edge. -/
def V.hashValue (v : V) : Nat := tripleHash v.src v.rel v.dst

/-- Table-name rendering of an optional relation inside a fragment. -/
def relTable : Option RelLabel → String
  | none => "*"
  | some r => r

/-- Modelled from the spec: StatementBuilder `ForwardRelation(source, relation?)`
(`SQL.forwards_relation` in `graphlite/sql.py`, not under the provided source) —
a pure function returning the forward relation lookup fragment built from
(source, relation), selecting destinations reachable from the source, plus
its positional parameters. -/
def forwards_relation (src : Option Node) (rel : Option RelLabel) : String × List Param :=
  ("SELECT dst FROM " ++ relTable rel ++ " WHERE src = ?", [src])

/-- Modelled from the spec: StatementBuilder `InverseRelation(destination, relation?)`
(`SQL.inverse_relation`, not under the provided source) — a pure function
returning the inverse relation lookup fragment built from (destination,
relation), selecting sources that reach the destination, plus its
positional parameters. -/
def inverse_relation (dst : Node) (rel : Option RelLabel) : String × List Param :=
  ("SELECT src FROM " ++ relTable rel ++ " WHERE dst = ?", [some dst])

/-- Modelled from the spec: StatementBuilder `CompoundForward(relation?, subqueryText)`
(`SQL.compound_fw_query`, not under the provided source) — a pure function
returning the compound forward traversal fragment that nests the current
joined statement as a subquery. -/
def compound_fw_query (rel : Option RelLabel) (query : String) : String × List Param :=
  ("SELECT dst FROM " ++ relTable rel ++ " WHERE src IN (" ++ query ++ ")", [])

/-- Modelled from the spec: StatementBuilder `CompoundInverse(destination, relation?, subqueryText)`
(`SQL.compound_iv_query`, not under the provided source) — a pure function
returning the compound inverse traversal fragment that nests the current
joined statement as a subquery. -/
def compound_iv_query (dst : Node) (rel : Option RelLabel) (query : String) : String × List Param :=
  ("SELECT src FROM " ++ relTable rel ++ " WHERE dst = ? AND src IN (" ++ query ++ ")",
   [some dst])

/-- The runtime type of the `sql` attribute of a `Query`: a Python tuple of
fragment strings (as built by `Query.__init__` and `Query.derived`) or a
Python list of fragment strings (as assigned by `Query.traverse`). -/
inductive PySeq where
  | tup (xs : List String)
  | lst (xs : List String)
deriving DecidableEq

/-- The fragments held by the sequence, ignoring its runtime type. -/
def PySeq.toList : PySeq → List String
  | PySeq.tup xs => xs
  | PySeq.lst xs => xs

/-- Python `self.sql + (statement,)`: concatenation of the stored sequence
with a tuple. Tuple + tuple concatenates; list + tuple raises `TypeError`. -/
def PySeq.addTup : PySeq → List String → Except PyErr PySeq
  | PySeq.tup xs, ys => Except.ok (PySeq.tup (xs ++ ys))
  | PySeq.lst _, _ => Except.error PyErr.typeError

/-- A result row: the node identifier in the first column plus the other
columns (the backend contract guarantees a first column exists). -/
abbrev Row := Int × List Int

/-- The backend session, modelled as a fixed mapping from a statement and
its positional parameters to the produced result rows. -/
abbrev Db := String → List Param → List Row

/-- The `Query` class: a backend session handle, the accumulated fragment
sequence, and the accumulated positional parameters. -/
structure Query where
  db : Db
  sql : PySeq
  params : List Param

/-- The statement joining of `Query.__iter__` and `Query.traverse`:
the fragments concatenated with a newline separator. -/
def joinStmts (sql : PySeq) : String := String.intercalate "\n" sql.toList

/-- `Query.__iter__`: execute the joined statement with the stored
parameters against the session and yield the first column of every row. -/
def Query.iter (q : Query) : List Int :=
  (q.db (joinStmts q.sql) q.params).map (fun item => item.1)

/-- `Query.derived`: a new Query over the same session whose sql is
`self.sql + (statement,)` and whose params are `self.params + params`.
The receiver is never touched; if the stored sql is a list the tuple
concatenation raises `TypeError`. -/
def Query.derived (q : Query) (statement : String) (ps : List Param) : Except PyErr Query :=
  match q.sql.addTup [statement] with
  | Except.ok sql2 => Except.ok { db := q.db, sql := sql2, params := q.params ++ ps }
  | Except.error e => Except.error e

/-- `Query.__call__`: direction inference over the edge — the forward
relation lookup when the destination is unbound, the inverse relation
lookup when the destination is bound, then derive from the fragment. -/
def Query.call (q : Query) (edge : V) : Except PyErr Query :=
  let sp :=
    match edge.dst with
    | none => forwards_relation edge.src edge.rel
    | some d => inverse_relation d edge.rel
  q.derived sp.1 sp.2

/-- `Query.traverse`: fold the current joined statement into one compound
traversal fragment (forward when the destination is unbound, inverse when
bound; the source is never read) and build a fresh Query whose sql is the
Python list literal `[statement]` and whose params are
`self.params + params`. -/
def Query.traverse (q : Query) (edge : V) : Query :=
  let query := joinStmts q.sql
  let sp :=
    match edge.dst with
    | none => compound_fw_query edge.rel query
    | some d => compound_iv_query d edge.rel query
  { db := q.db, sql := PySeq.lst [sp.1], params := q.params ++ sp.2 }

/-- The `Query.intersection` property: `self.derived('INTERSECT')`. -/
def Query.intersection (q : Query) : Except PyErr Query := q.derived "INTERSECT" []

/-- The `Query.difference` property: `self.derived('EXCEPT')`. -/
def Query.difference (q : Query) : Except PyErr Query := q.derived "EXCEPT" []

/-- The `Query.union` property: `self.derived('UNION')`. -/
def Query.union (q : Query) : Except PyErr Query := q.derived "UNION" []

/-- `Query.count`: `sum(1 for __ in self)` over a fresh iteration. -/
def Query.count (q : Query) : Nat := q.iter.foldl (fun n _ => n + 1) 0

/-- A Python value used as a subscript: a slice object carrying start,
stop and step attributes, or a value of some other runtime type. -/
inductive PyIndex where
  | slice (start stop step : Option Int)
  | int (n : Int)
  | str (s : String)
  | noneV
deriving DecidableEq

/-- Whether the subscript value carries the start/stop/step attributes. -/
def PyIndex.isSliceShaped : PyIndex → Bool
  | PyIndex.slice _ _ _ => true
  | _ => false

/-- Whether a position lies below an optional stop bound (no bound when
the stop is absent). -/
def belowStop (t : Option Nat) (i : Nat) : Bool :=
  match t with
  | none => true
  | some t0 => decide (i < t0)

/-- The element selection of `itertools.islice` on a finite sequence:
positions at indices start, start + step, start + 2*step, ... that lie
below the stop bound. -/
def sliceSel (xs : List Int) (s : Nat) (t : Option Nat) (k : Nat) : List Int :=
  ((List.range xs.length).filter (fun i =>
      decide (s ≤ i) && belowStop t i && decide ((i - s) % k = 0))).filterMap
    (fun i => xs[i]?)

/-- The argument validation of `itertools.islice`: start and stop must
each be absent or a nonnegative integer, step must be absent or a
positive integer. -/
def isliceArgsOk (start stop step : Option Int) : Bool :=
  (match start with | none => true | some a => decide (0 ≤ a)) &&
  (match stop with | none => true | some b => decide (0 ≤ b)) &&
  (match step with | none => true | some c => decide (0 < c))

/-- The start position used by islice: 0 when absent. -/
def isliceStart (start : Option Int) : Nat :=
  (match start with | none => 0 | some a => a).toNat

/-- The stop bound used by islice: none means unbounded. -/
def isliceStop (stop : Option Int) : Option Nat :=
  match stop with
  | none => none
  | some b => some b.toNat

/-- The step used by islice and by standard slicing: 1 when absent. -/
def stepNat (step : Option Int) : Nat :=
  (match step with | none => 1 | some c => c).toNat

/-- `itertools.islice(iterable, start, stop, step)` on a finite sequence:
invalid arguments raise `ValueError`, valid ones select the elements of
`sliceSel`. -/
def islice (xs : List Int) (start stop step : Option Int) : Except PyErr (List Int) :=
  if isliceArgsOk start stop step then
    Except.ok (sliceSel xs (isliceStart start) (isliceStop stop) (stepNat step))
  else Except.error PyErr.valueError

/-- `Query.__getitem__`: read the start/stop/step attributes of the
subscript and hand them to islice over a fresh iteration. A subscript of
any other runtime type has no start attribute, so the attribute access
itself raises `AttributeError`. -/
def Query.getitem (q : Query) (value : PyIndex) : Except PyErr (List Int) :=
  match value with
  | PyIndex.slice start stop step => islice q.iter start stop step
  | _ => Except.error PyErr.attributeError

/-- Index clamping of standard sequence slicing, written from the
specification: a negative bound counts from the end of the sequence, and
the result is clamped into the interval from 0 to the length. -/
def clampIdx (len i : Int) : Int :=
  if i < 0 then (if i + len < 0 then 0 else i + len)
  else (if len < i then len else i)

/-- The normalized and clamped start bound of standard slicing: 0 when
absent. -/
def specStart (len : Int) (start : Option Int) : Nat :=
  (match start with | none => 0 | some i => clampIdx len i).toNat

/-- The normalized and clamped stop bound of standard slicing: the length
when absent. -/
def specStop (len : Int) (stop : Option Int) : Nat :=
  (match stop with | none => len | some i => clampIdx len i).toNat

/-- Defined from the specification words, for comparison with
`Query.__getitem__`: standard half-open slice-range semantics with clamped
indices — the selected positions i satisfy s ≤ i < t with (i - s) a
multiple of the step, where s and t are the start/stop bounds normalized
and clamped by `clampIdx` (start defaults to 0, stop to the length, step
to 1). -/
def specSliceRange (xs : List Int) (start stop step : Option Int) : List Int :=
  ((List.range xs.length).filter (fun i =>
      decide (specStart ((xs.length : Int)) start ≤ i) &&
      decide (i < specStop ((xs.length : Int)) stop) &&
      decide ((i - specStart ((xs.length : Int)) start) % stepNat step = 0))).filterMap
    (fun i => xs[i]?)

/-- A backend session that returns no rows, for concrete instances. -/
def db0 : Db := fun _ _ => []

/-- A backend session that returns three rows with identifiers 10, 20, 30. -/
def db1 : Db := fun _ _ => [(10, []), (20, []), (30, [])]

/-- An empty root query over `db0`. -/
def q0 : Query := { db := db0, sql := PySeq.tup [], params := [] }

/-- A one-fragment query over `db1`. -/
def q1 : Query := { db := db1, sql := PySeq.tup ["SELECT src FROM knows WHERE dst = ?"], params := [some 2] }

/-- A query produced by `Query.traverse`, whose sql is a Python list. -/
def qT : Query := q0.traverse { src := none, rel := some "knows", dst := none }

/-- Counting a fold that adds one per element gives the length. -/
theorem foldl_add_one (xs : List Int) (a : Nat) :
    xs.foldl (fun n _ => n + 1) a = a + xs.length := by
  induction xs generalizing a with
  | nil => simp
  | cons x rest ih => simp [List.foldl_cons, ih]; omega

/-- Claim C9: for every Query over a backend modelled as a fixed result
sequence, `Query.count` equals the number of elements produced by a fresh
`Query.iter` of the same query (and is computed from exactly one such
execution, `count` being a fold over a single fresh iteration). -/
theorem count_eq_iter_length (q : Query) : q.count = q.iter.length := by
  unfold Query.count
  rw [foldl_add_one]
  simp

/-- Claim C3 (amended): for every Query whose fragment sequence is stored
as a tuple — every Query built by the constructor or by `derived` itself —
`Query.derived` returns a Query whose fragment sequence is the old one
with the fragment appended and whose parameter sequence is the old one
with the new parameters appended; the receiver, being a pure value here,
is untouched. -/
theorem derived_appends_on_tuple (db : Db) (xs : List String) (ps : List Param)
    (f : String) (qs : List Param) :
    Query.derived { db := db, sql := PySeq.tup xs, params := ps } f qs =
      Except.ok { db := db, sql := PySeq.tup (xs ++ [f]), params := ps ++ qs } := rfl

/-- Claim C3 counterexample: on a Query produced by `traverse` (whose
fragment sequence is a Python list) `derived` raises `TypeError` instead
of returning the appended Query, so the claim does not hold for every
Query. -/
theorem derived_on_traversed_raises :
    qT.derived "ORDER BY 1" [] = Except.error PyErr.typeError := rfl

/-- Claim C10: every Query produced by `traverse` stores its single
fragment as a Python list, so every subsequent fragment-appending
operation — `derived`, and with it `__call__` and the
intersection/union/difference properties — raises `TypeError` instead of
returning a new Query, while tuple-backed Queries (from the constructor
or from `derived`) always append successfully. -/
theorem traverse_list_breaks_append (q : Query) (e : V) (f : String)
    (ps : List Param) (e2 : V) :
    (∃ st : List String, (q.traverse e).sql = PySeq.lst st) ∧
    (q.traverse e).derived f ps = Except.error PyErr.typeError ∧
    (q.traverse e).call e2 = Except.error PyErr.typeError ∧
    (q.traverse e).intersection = Except.error PyErr.typeError ∧
    (q.traverse e).union = Except.error PyErr.typeError ∧
    (q.traverse e).difference = Except.error PyErr.typeError ∧
    (∀ db xs ps0, Query.derived { db := db, sql := PySeq.tup xs, params := ps0 } f ps =
      Except.ok { db := db, sql := PySeq.tup (xs ++ [f]), params := ps0 ++ ps }) :=
  ⟨⟨_, rfl⟩, rfl, rfl, rfl, rfl, rfl, fun _ _ _ => rfl⟩

/-- Claim C4 (amended): a pattern with both endpoints unbound never fails
with any InvalidPattern condition — no such condition exists in the code.
`traverse`, on every Query, takes the compound forward branch (it never
reads the source) and returns a folded Query; `__call__` takes the
forward lookup branch with an unbound source and, on a tuple-backed
receiver (any Query not produced by `traverse`), returns the derived
Query, while on a Query produced by `traverse` it raises `TypeError`
from the list-tuple concatenation — still not an InvalidPattern
condition. -/
theorem unbound_pattern_takes_forward_path (db : Db) (xs : List String)
    (ps : List Param) (r : Option RelLabel) (q p : Query) :
    Query.call { db := db, sql := PySeq.tup xs, params := ps }
        { src := none, rel := r, dst := none } =
      Except.ok { db := db,
                  sql := PySeq.tup (xs ++ [(forwards_relation none r).1]),
                  params := ps ++ (forwards_relation none r).2 } ∧
    q.traverse { src := none, rel := r, dst := none } =
      { db := q.db,
        sql := PySeq.lst [(compound_fw_query r (joinStmts q.sql)).1],
        params := q.params ++ (compound_fw_query r (joinStmts q.sql)).2 } ∧
    (∀ e : V, (p.traverse e).call { src := none, rel := r, dst := none } =
      Except.error PyErr.typeError) :=
  ⟨rfl, rfl, fun _ => rfl⟩

/-- Claim C4 counterexample: applying the fully unbound pattern
(None, knows, None) to the empty Query succeeds with a derived Query
built from the forward relation lookup fragment — it does not fail with
any condition. -/
theorem unbound_pattern_produces_query :
    q0.call { src := none, rel := some "knows", dst := none } =
      Except.ok { db := db0,
                  sql := PySeq.tup [(forwards_relation none (some "knows")).1],
                  params := [none] } := rfl

/-- Claim C1 (amended): on every Query whose fragment sequence is stored
as a tuple (every Query not produced by `traverse`), `__call__` derives
from the forward relation lookup fragment built from (source, relation)
when the destination is unbound, and from the inverse relation lookup
fragment built from (destination, relation) when the destination is bound
regardless of the source; exactly one branch fires since the destination
is either unbound or bound. -/
theorem apply_edge_direction (db : Db) (xs : List String) (ps : List Param) (e : V) :
    (e.dst = none →
      Query.call { db := db, sql := PySeq.tup xs, params := ps } e =
        Except.ok { db := db,
                    sql := PySeq.tup (xs ++ [(forwards_relation e.src e.rel).1]),
                    params := ps ++ (forwards_relation e.src e.rel).2 }) ∧
    (∀ d, e.dst = some d →
      Query.call { db := db, sql := PySeq.tup xs, params := ps } e =
        Except.ok { db := db,
                    sql := PySeq.tup (xs ++ [(inverse_relation d e.rel).1]),
                    params := ps ++ (inverse_relation d e.rel).2 }) := by
  constructor
  · intro h
    simp [Query.call, h, Query.derived, PySeq.addTup]
  · intro d h
    simp [Query.call, h, Query.derived, PySeq.addTup]

/-- Claim C1 witness: the bound-destination pattern (1, knows, 2) applied
to the concrete one-fragment Query takes the inverse lookup branch. -/
theorem apply_edge_direction_inst :
    Query.call q1 { src := some 1, rel := some "knows", dst := some 2 } =
      Except.ok { db := db1,
                  sql := PySeq.tup (["SELECT src FROM knows WHERE dst = ?"] ++
                    [(inverse_relation 2 (some "knows")).1]),
                  params := [some 2] ++ (inverse_relation 2 (some "knows")).2 } :=
  (apply_edge_direction db1 ["SELECT src FROM knows WHERE dst = ?"] [some 2]
    ⟨some 1, some "knows", some 2⟩).2 2 rfl

/-- Claim C1 counterexample: on a Query produced by `traverse` the same
application raises `TypeError` instead of returning the derived Query, so
the claim does not hold for every Query. -/
theorem apply_edge_on_traversed_raises :
    qT.call { src := some 1, rel := some "knows", dst := none } =
      Except.error PyErr.typeError := rfl

/-- Claim C2: for every Query and edge pattern, `traverse` returns a new
Query holding exactly one fragment — the compound forward traversal of
(relation, joined statement) when the destination is unbound, else the
compound inverse traversal of (destination, relation, joined statement) —
with parameters equal to the old parameters followed by the fragment
parameters, and the source field of the pattern is ignored entirely. -/
theorem traverse_folds_single_fragment (q : Query) (e : V) :
    (e.dst = none →
      q.traverse e =
        { db := q.db,
          sql := PySeq.lst [(compound_fw_query e.rel (joinStmts q.sql)).1],
          params := q.params ++ (compound_fw_query e.rel (joinStmts q.sql)).2 }) ∧
    (∀ d, e.dst = some d →
      q.traverse e =
        { db := q.db,
          sql := PySeq.lst [(compound_iv_query d e.rel (joinStmts q.sql)).1],
          params := q.params ++ (compound_iv_query d e.rel (joinStmts q.sql)).2 }) ∧
    ((q.traverse e).sql.toList.length = 1) ∧
    (∀ s2, q.traverse { src := s2, rel := e.rel, dst := e.dst } = q.traverse e) := by
  refine ⟨?_, ?_, ?_, ?_⟩
  · intro h
    simp [Query.traverse, h]
  · intro d h
    simp [Query.traverse, h]
  · rfl
  · intro s2
    rfl

/-- Claim C2 witness: traversing the concrete one-fragment Query with the
destination-unbound pattern folds it into the single compound forward
fragment over its joined statement. -/
theorem traverse_folds_single_fragment_inst :
    q1.traverse { src := some 7, rel := some "likes", dst := none } =
      { db := q1.db,
        sql := PySeq.lst [(compound_fw_query (some "likes") (joinStmts q1.sql)).1],
        params := q1.params ++ (compound_fw_query (some "likes") (joinStmts q1.sql)).2 } :=
  (traverse_folds_single_fragment q1 ⟨some 7, some "likes", none⟩).1 rfl

/-- Claim C5 (amended): for every Query, the intersection, union and
difference properties equal `derived` of the keywords INTERSECT, UNION
and EXCEPT respectively; on tuple-backed Queries each appends exactly the
keyword fragment and leaves the parameter sequence equal to the old one,
while on Queries produced by `traverse` each raises `TypeError`. -/
theorem set_ops_are_derived_keywords (q : Query) :
    q.intersection = q.derived "INTERSECT" [] ∧
    q.union = q.derived "UNION" [] ∧
    q.difference = q.derived "EXCEPT" [] ∧
    (∀ db xs ps, q = { db := db, sql := PySeq.tup xs, params := ps } →
      q.intersection =
        Except.ok { db := db, sql := PySeq.tup (xs ++ ["INTERSECT"]), params := ps } ∧
      q.union =
        Except.ok { db := db, sql := PySeq.tup (xs ++ ["UNION"]), params := ps } ∧
      q.difference =
        Except.ok { db := db, sql := PySeq.tup (xs ++ ["EXCEPT"]), params := ps }) := by
  refine ⟨rfl, rfl, rfl, ?_⟩
  rintro db xs ps rfl
  refine ⟨?_, ?_, ?_⟩ <;>
    simp [Query.intersection, Query.union, Query.difference, Query.derived, PySeq.addTup]

/-- Claim C5 witness: the intersection property on the concrete
one-fragment Query appends exactly the INTERSECT keyword. -/
theorem set_ops_are_derived_keywords_inst :
    q1.intersection =
      Except.ok { db := db1,
                  sql := PySeq.tup (["SELECT src FROM knows WHERE dst = ?"] ++ ["INTERSECT"]),
                  params := [some 2] } :=
  ((set_ops_are_derived_keywords q1).2.2.2 db1
    ["SELECT src FROM knows WHERE dst = ?"] [some 2] rfl).1

/-- Claim C5 counterexample: on a Query produced by `traverse` the union
property raises `TypeError` instead of appending the keyword, so the
claim does not hold for every Query. -/
theorem set_op_on_traversed_raises :
    qT.union = Except.error PyErr.typeError := rfl

/-- Claim C6: identical (source, relation, destination) triples give equal
edges with equal hashes; two edges compare equal exactly when their
triples agree componentwise; and comparison of an edge against a value of
any other runtime type is false — `V.eq` is a total Bool-valued function,
so the comparison never raises. -/
theorem pattern_eq_hash (s d : Option Node) (r : Option RelLabel) (v w : V) (x : PyVal) :
    V.eq ⟨s, r, d⟩ (PyVal.vV ⟨s, r, d⟩) = true ∧
    (V.eq v (PyVal.vV w) = true ↔ (v.src = w.src ∧ v.rel = w.rel ∧ v.dst = w.dst)) ∧
    (V.eq v (PyVal.vV w) = true → v.hashValue = w.hashValue) ∧
    ((∀ u : V, x ≠ PyVal.vV u) → V.eq v x = false) := by
  refine ⟨?_, ?_, ?_, ?_⟩
  · simp [V.eq]
  · simp [V.eq, and_assoc]
  · intro h
    simp [V.eq] at h
    obtain ⟨⟨h1, h2⟩, h3⟩ := h
    simp [V.hashValue, h1, h2, h3]
  · intro h
    cases x with
    | vV u => exact absurd rfl (h u)
    | vInt n => rfl
    | vStr s2 => rfl
    | vNone => rfl

/-- Claim C6 witness: the concrete pattern (1, knows, 2) equals and hashes
like itself, and compares false against the integer 7. -/
theorem pattern_eq_hash_inst :
    V.eq ⟨some 1, some "knows", some 2⟩ (PyVal.vV ⟨some 1, some "knows", some 2⟩) = true ∧
    V.hashValue ⟨some 1, some "knows", some 2⟩ =
      V.hashValue ⟨some 1, some "knows", some 2⟩ ∧
    V.eq ⟨some 1, some "knows", some 2⟩ (PyVal.vInt 7) = false :=
  ⟨(pattern_eq_hash (some 1) (some 2) (some "knows") ⟨some 1, some "knows", some 2⟩
      ⟨some 1, some "knows", some 2⟩ (PyVal.vInt 7)).1,
   (pattern_eq_hash (some 1) (some 2) (some "knows") ⟨some 1, some "knows", some 2⟩
      ⟨some 1, some "knows", some 2⟩ (PyVal.vInt 7)).2.2.1
     (pattern_eq_hash (some 1) (some 2) (some "knows") ⟨some 1, some "knows", some 2⟩
      ⟨some 1, some "knows", some 2⟩ (PyVal.vInt 7)).1,
   (pattern_eq_hash (some 1) (some 2) (some "knows") ⟨some 1, some "knows", some 2⟩
      ⟨some 1, some "knows", some 2⟩ (PyVal.vInt 7)).2.2.2
     (fun _ hh => PyVal.noConfusion hh)⟩

/-- Claim C8: subscripting a Query with any value that is not slice-shaped
(one not carrying the start/stop/step attributes, such as a plain
integer) fails — the attribute access raises, realizing the
UnsupportedIndex condition of the design — and only slice-shaped
subscripts are accepted. -/
theorem nonslice_subscript_raises (q : Query) (i : PyIndex)
    (h : i.isSliceShaped = false) :
    q.getitem i = Except.error PyErr.attributeError := by
  cases i with
  | slice a b c => simp [PyIndex.isSliceShaped] at h
  | int n => rfl
  | str s => rfl
  | noneV => rfl

/-- Claim C8 witness: subscripting the concrete Query with the integer 0
raises. -/
theorem nonslice_subscript_raises_inst :
    q1.getitem (PyIndex.int 0) = Except.error PyErr.attributeError :=
  nonslice_subscript_raises q1 (PyIndex.int 0) rfl


/-- Two index filters that agree below the length select the same
elements. -/
theorem filterMap_range_congr (xs : List Int) (p p2 : Nat → Bool)
    (h : ∀ i, i < xs.length → p i = p2 i) :
    ((List.range xs.length).filter p).filterMap (fun i => xs[i]?) =
      ((List.range xs.length).filter p2).filterMap (fun i => xs[i]?) := by
  have hf : (List.range xs.length).filter p = (List.range xs.length).filter p2 :=
    List.filter_congr (fun a ha => h a (List.mem_range.mp ha))
  rw [hf]

/-- The islice selection agrees with a clamped index filter whenever the
start positions coincide or both lie at or beyond the length, and the
stop bounds agree below the length. -/
theorem sliceSel_eq_clamped (xs : List Int) (s1 s2 : Nat) (t1 : Option Nat)
    (t2 k : Nat)
    (hs : s1 = s2 ∨ (xs.length ≤ s1 ∧ xs.length ≤ s2))
    (ht : ∀ i, i < xs.length → belowStop t1 i = decide (i < t2)) :
    sliceSel xs s1 t1 k =
      ((List.range xs.length).filter (fun i =>
        decide (s2 ≤ i) && decide (i < t2) && decide ((i - s2) % k = 0))).filterMap
        (fun i => xs[i]?) := by
  unfold sliceSel
  apply filterMap_range_congr
  intro i hi
  rcases hs with rfl | ⟨hA, hB⟩
  · simp [ht i hi]
  · have hA2 : ¬(s1 ≤ i) := by omega
    have hB2 : ¬(s2 ≤ i) := by omega
    simp [hA2, hB2]

/-- On valid arguments islice computes exactly the clamped half-open
slice selection of the specification. -/
theorem islice_eq_specSliceRange (xs : List Int) (start stop step : Option Int)
    (h1 : ∀ a, start = some a → 0 ≤ a)
    (h2 : ∀ b, stop = some b → 0 ≤ b)
    (h3 : ∀ c, step = some c → 0 < c) :
    islice xs start stop step = Except.ok (specSliceRange xs start stop step) := by
  have hcond : isliceArgsOk start stop step = true := by
    unfold isliceArgsOk
    cases start <;> cases stop <;> cases step <;> simp_all
  unfold islice
  rw [if_pos hcond]
  unfold specSliceRange
  congr 1
  apply sliceSel_eq_clamped
  · cases start with
    | none =>
      left
      simp [isliceStart, specStart]
    | some a =>
      have ha := h1 a rfl
      simp only [isliceStart, specStart, clampIdx]
      split_ifs <;> omega
  · intro i hi
    cases stop with
    | none =>
      simp only [isliceStop, specStop, belowStop]
      have hlt : i < ((xs.length : Int)).toNat := by omega
      simp [hlt, hi]
    | some b =>
      have hb := h2 b rfl
      simp only [isliceStop, specStop, belowStop, clampIdx]
      rw [decide_eq_decide]
      split_ifs <;> omega

/-- Claim C7 (amended): for every Query and every slice whose start and
stop bounds are absent or nonnegative and whose step is absent or
positive, subscripting yields exactly the elements of a fresh iteration
selected by standard half-open slice-range semantics with clamped indices
(`specSliceRange`); in particular an empty range yields an empty sequence
and never a failure. Slices with a negative bound or a nonpositive step
raise `ValueError` instead of following standard slice semantics. -/
theorem slice_matches_spec (q : Query) (start stop step : Option Int)
    (h1 : ∀ a, start = some a → 0 ≤ a)
    (h2 : ∀ b, stop = some b → 0 ≤ b)
    (h3 : ∀ c, step = some c → 0 < c) :
    q.getitem (PyIndex.slice start stop step) =
      Except.ok (specSliceRange q.iter start stop step) := by
  unfold Query.getitem
  exact islice_eq_specSliceRange q.iter start stop step h1 h2 h3

/-- Claim C7 witness: slicing the three-element result sequence with
bounds (1, 3) yields exactly the elements at 0-based indices 1 and 2. -/
theorem slice_matches_spec_inst :
    q1.getitem (PyIndex.slice (some 1) (some 3) none) =
      Except.ok (specSliceRange q1.iter (some 1) (some 3) none) ∧
    specSliceRange q1.iter (some 1) (some 3) none = [20, 30] :=
  ⟨slice_matches_spec q1 (some 1) (some 3) none
      (fun a h => by injection h with h0; omega)
      (fun b h => by injection h with h0; omega)
      (fun c h => Option.noConfusion h),
   by decide⟩

/-- Claim C7 counterexample: for the slice with stop bound -1, standard
slice-range semantics with clamped indices selects all but the last
element — [10, 20] of the three-element result — but subscripting raises
`ValueError`, so the claim does not hold for every slice. -/
theorem slice_negative_stop_raises :
    q1.getitem (PyIndex.slice none (some (-1)) none) =
      Except.error PyErr.valueError ∧
    specSliceRange q1.iter none (some (-1)) none = [10, 20] := by
  constructor
  · rfl
  · decide
